import Mathlib

/-!
Verification development for the task engine of the decanter-ai-core-sdk
repository (src/decanter/core/jobs/task.py).  The Python classes `Task`,
`CoreTask` and the task variants are shallowly embedded as Lean functions on
an explicit task state; machine-level details that the claims do not touch
(the HTTP transport, tqdm rendering, logging) are reduced to their observable
effect on the task's fields.  Python `float` progress arithmetic is embedded
over `ℚ`; `int()` is truncation toward zero.  Exceptions are embedded as
`Except`: each stateful operation returns the outcome together with the state
as left behind when the exception escapes, so partial mutation before a raise
is preserved.
-/

namespace Decanter

/- Modelled from the spec: `decanter.core.extra.CoreStatus` is not under
src/ (task.py only imports it).  Spec section 3: closed status enumeration
`PENDING`, `RUNNING`, `DONE`, `FAIL`, with `FAIL_STATUS` the set of failure
states and `DONE_STATUS ⊇ FAIL_STATUS ∪ {DONE}`.  Statuses travel as strings
in the payloads, so they are embedded as strings. -/
namespace CoreStatus

/-- Modelled from the spec: the `PENDING` lifecycle state. -/
def PENDING : String := "pending"

def RUNNING : String := "running"

def DONE : String := "done"

def FAIL : String := "fail"

def DONE_STATUS : List String := [DONE, FAIL]

def FAIL_STATUS : List String := [FAIL]

end CoreStatus

/-- A status payload as returned by the remote service (spec section 6): the
fields `id`, `status`, `progress`, `result`, any subset of which may be
absent.  `result` is an opaque value, embedded as a string. -/
structure StatusPayload where
  id : Option String
  status : Option String
  progress : Option ℚ
  result : Option String
  deriving DecidableEq, Repr

/-- A transport-level response: the success flag checked by `check_response`
plus the JSON body delivered by `.json()`. -/
structure ApiResponse where
  ok : Bool
  body : StatusPayload
  deriving DecidableEq, Repr

/-- What `self.response` holds: `None` initially, the raw transport response
right after the poll in `update`, or the parsed JSON body after `.json()`. -/
inductive RespStored where
  | raw (r : ApiResponse)
  | parsed (p : StatusPayload)
  deriving DecidableEq, Repr

/-- The tqdm progress bar as observed by the task code: construction
parameters and the accumulated count `n`, which `pbar.update(diff)` shifts
by `diff` (tqdm does not clamp). -/
structure Pbar where
  total : Nat
  position : Nat
  desc : String
  n : Int
  deriving DecidableEq, Repr

/-- The mutable fields of a `CoreTask` instance: `status`, `result`, `name`
from `Task.__init__`, plus `id`, `response`, `progress`, `pbar` from
`CoreTask.__init__`. -/
structure CoreTaskState where
  status : String
  result : Option String
  name : String
  id : Option String
  response : Option RespStored
  progress : ℚ
  pbar : Option Pbar
  deriving DecidableEq, Repr

/-- The process-wide mutable state: the class attribute `CoreTask.BAR_CNT`. -/
structure GlobalState where
  barCnt : Nat
  deriving DecidableEq, Repr

/-- Python exceptions that the embedded code can raise.  `submissionError`
stands for the exception `check_response` raises on a non-success transport
result or a missing required key; `attributeError` for `None.update(...)`
when `pbar` is unset; `typeError` for subscripting a non-dict response;
`nameError` for an unbound name. -/
inductive CoreErr where
  | submissionError
  | attributeError
  | typeError
  | nameError (n : String)
  deriving DecidableEq, Repr

/-- Modelled from the spec: `decanter.core.extra.CoreKeys` is not under src/.
Spec section 6 status payload contract: the fields `id`, `status`,
`progress`, `result`; the enum member name is the local attribute and its
value the payload key. -/
inductive CoreKeys where
  | id
  | progress
  | result
  | status
  deriving DecidableEq, Repr

/-- The payload key for a `CoreKeys` member (`key_.value` in the source). -/
def CoreKeys.value : CoreKeys → String
  | .id => "id"
  | .progress => "progress"
  | .result => "result"
  | .status => "status"

/-- Whether a payload carries the given key. -/
def StatusPayload.hasKey (p : StatusPayload) (k : String) : Bool :=
  (k = "id" && p.id.isSome) || (k = "status" && p.status.isSome) ||
    (k = "progress" && p.progress.isSome) || (k = "result" && p.result.isSome)

/-- Modelled from the spec: `decanter.core.extra.utils.check_response` is not
under src/.  Spec sections 4.2 and 7: submission "Fails with
`SubmissionError` if the transport reports a non-success result or the
response lacks a job identifier", and a failed poll "is surfaced to the
caller as an error from `update`".  So: raise on a non-success response,
raise when a required `key` is absent from the body, otherwise return the
response. -/
def check_response (r : ApiResponse) (key : Option String) :
    Except CoreErr ApiResponse :=
  if r.ok then
    match key with
    | some k => if r.body.hasKey k then .ok r else .error .submissionError
    | none => .ok r
  else .error .submissionError

/-- Modelled from the spec: `decanter.core.extra.utils.get_key` is not under
src/.  Spec section 4.2 step 2: "Extract and store `remoteId` from the
response"; the lookup of the identifier field in the parsed body. -/
def get_key (p : StatusPayload) (k : String) : Option String :=
  if k = "id" then p.id else if k = "status" then p.status
  else if k = "result" then p.result else none

/-- Python `int()` applied to a rational: truncation toward zero. -/
def pyInt (q : ℚ) : Int :=
  if q.num < 0 then -((q.num.natAbs / q.den : Nat) : Int)
  else ((q.num.natAbs / q.den : Nat) : Int)

/-- `Task.__init__` followed by `CoreTask.__init__` (task.py lines 41-44 and
110-117): status `PENDING`, result `None`, id `None`, response `None`,
progress `0`, no progress bar. -/
def CoreTask.init (name : String) : CoreTaskState :=
  { status := CoreStatus.PENDING, result := none, name := name,
    id := none, response := none, progress := 0, pbar := none }

/-- `Task.is_done` (task.py line 51): `self.status in CoreStatus.DONE_STATUS`. -/
def Task.is_done (s : CoreTaskState) : Bool :=
  CoreStatus.DONE_STATUS.contains s.status

/-- `Task.not_done` (task.py line 58). -/
def Task.not_done (s : CoreTaskState) : Bool :=
  ! Task.is_done s

/-- `Task.is_success` (task.py line 65):
`self.status == CoreStatus.DONE and self.result is not None`. -/
def Task.is_success (s : CoreTaskState) : Bool :=
  s.status = CoreStatus.DONE && s.result.isSome

/-- `Task.is_fail` (task.py lines 72-73): `self.status in
CoreStatus.FAIL_STATUS or (self.status == CoreStatus.DONE and self.result is
None)`. -/
def Task.is_fail (s : CoreTaskState) : Bool :=
  CoreStatus.FAIL_STATUS.contains s.status ||
    (s.status = CoreStatus.DONE && s.result.isNone)

/-- The inner `update_pbar` of `CoreTask.update_task_response` (task.py lines
144-147): `diff = int((resp_progress - self.progress)*100)`;
`self.pbar.update(diff)`; `self.progress = resp_progress`.  When `self.pbar`
is `None` the method call raises `AttributeError`. -/
def CoreTask.update_pbar (s : CoreTaskState) (resp_progress : ℚ) :
    Except CoreErr Unit × CoreTaskState :=
  match s.pbar with
  | none => (.error .attributeError, s)
  | some pb =>
      (.ok (), { s with
        pbar := some { pb with n := pb.n + pyInt ((resp_progress - s.progress) * 100) },
        progress := resp_progress })

/-- `CoreTask.update_task_response` (task.py lines 134-156): for each of the
keys `id`, `progress`, `result`, `status` in order, look the key up in
`self.response` and `setattr` the same-named attribute; a `KeyError` from a
missing key is logged at debug level and skipped; for the `progress` key,
`update_pbar` runs first.  Subscripting a response that is not a parsed dict
raises (uncaught). -/
def CoreTask.update_task_response (s : CoreTaskState) :
    Except CoreErr Unit × CoreTaskState :=
  match s.response with
  | some (.parsed p) =>
      let s1 := match p.id with
        | some v => { s with id := some v }
        | none => s
      match (match p.progress with
        | some v => CoreTask.update_pbar s1 v
        | none => (.ok (), s1)) with
      | (.error e, s2) => (.error e, s2)
      | (.ok _, s2) =>
          let s3 := match p.progress with
            | some v => { s2 with progress := v }
            | none => s2
          let s4 := match p.result with
            | some v => { s3 with result := some v }
            | none => s3
          let s5 := match p.status with
            | some v => { s4 with status := v }
            | none => s4
          (.ok (), s5)
  | _ => (.error .typeError, s)

/-- `CoreTask.update` (task.py lines 119-132).  The awaited
`get_tasks_by_id` poll is embedded by passing its transport response
`queryResp` as an argument.  The raw response is stored first; if the status
is already in `DONE_STATUS` the method returns there; otherwise the response
is checked, parsed and applied via `update_task_response`. -/
def CoreTask.update (s : CoreTaskState) (queryResp : ApiResponse) :
    Except CoreErr Unit × CoreTaskState :=
  let s0 := { s with response := some (.raw queryResp) }
  if CoreStatus.DONE_STATUS.contains s0.status then (.ok (), s0)
  else
    match check_response queryResp none with
    | .error e => (.error e, s0)
    | .ok r =>
        let s1 := { s0 with response := some (.parsed r.body) }
        CoreTask.update_task_response s1

/-- `CoreTask.run_core_task` (task.py lines 166-187).  The `api_func` call's
transport response is passed as `apiResp`.  `check_response` with the `id`
key runs first (raising leaves everything unmutated); then the parsed body is
stored, the id extracted, a tqdm bar created at position `BAR_CNT`,
`BAR_CNT` incremented, and the status set to `RUNNING`. -/
def CoreTask.run_core_task (s : CoreTaskState) (g : GlobalState)
    (apiResp : ApiResponse) :
    Except CoreErr Unit × CoreTaskState × GlobalState :=
  match check_response apiResp (some CoreKeys.id.value) with
  | .error e => (.error e, s, g)
  | .ok r =>
      let body := r.body
      let s1 := { s with
        response := some (.parsed body),
        id := get_key body CoreKeys.id.value,
        pbar := some { total := 100, position := g.barCnt,
                       desc := "Progress " ++ s.name, n := 0 },
        status := CoreStatus.RUNNING }
      (.ok (), s1, { g with barCnt := g.barCnt + 1 })

/-- `CoreTask.stop` (task.py lines 189-199): when `self.id` is set, the
cancellation request's response goes through `check_response` (whose raise
propagates, skipping the rest); then `status = FAIL`.  The cancellation
transport response is passed as `cancelResp`. -/
def CoreTask.stop (s : CoreTaskState) (cancelResp : ApiResponse) :
    Except CoreErr Unit × CoreTaskState :=
  match s.id with
  | some _ =>
      match check_response cancelResp none with
      | .error e => (.error e, s)
      | .ok _ => (.ok (), { s with status := CoreStatus.FAIL })
  | none => (.ok (), { s with status := CoreStatus.FAIL })

/-- Names bound in the local scope of `GPPredictTask.run` (task.py lines
386-391) at the point the argument expression `**pred_params` is evaluated:
the parameter `self` and the assigned local `gp_pred_params`. -/
def gpPredictRunLocals : List String := ["self", "gp_pred_params"]

/-- Names bound at module level in task.py (imports, module constants and the
class statements). -/
def taskModuleGlobals : List String :=
  ["abc", "logging", "partial", "Context", "CoreAPI", "GPAPI", "CoreStatus",
   "CoreKeys", "check_response", "isnotebook", "gen_id", "get_key", "tqdm",
   "logger", "Task", "CoreTask", "UploadTask", "GPUploadTask", "TrainTask",
   "GPTrainTask", "TrainTSTask", "PredictTask", "PredictTSTask", "SetupTask",
   "GPSetupTask", "GPPredictTask"]

/-- Python name resolution inside `GPPredictTask.run`: locals, then module
globals; an unbound name raises `NameError`. -/
def lookupName (n : String) : Except CoreErr String :=
  if gpPredictRunLocals.contains n || taskModuleGlobals.contains n then .ok n
  else .error (.nameError n)

/-- `GPPredictTask.run` (task.py lines 386-391): `gp_pred_params` is assigned
from `getPredictParams()`, then the call `run_core_task(api_func=...,
**pred_params)` evaluates the name `pred_params`, which is bound nowhere; the
`NameError` escapes before `run_core_task` is invoked, so neither the task
state nor `BAR_CNT` is touched. -/
def GPPredictTask.run (s : CoreTaskState) (g : GlobalState) :
    Except CoreErr Unit × CoreTaskState × GlobalState :=
  match lookupName "pred_params" with
  | .error e => (.error e, s, g)
  | .ok _ => (.ok (), s, g)

/-- A submission response that `run_core_task` accepts: transport success and
a job identifier in the body. -/
def submitOk (r : ApiResponse) : Bool :=
  r.ok && r.body.id.isSome

/-- A sequence of `run_core_task` submissions threading the process-wide
`BAR_CNT` through: returns the resulting task states in order together with
the final counter. -/
def registerAll (g : GlobalState) :
    List (CoreTaskState × ApiResponse) → List CoreTaskState × GlobalState
  | [] => ([], g)
  | (s, r) :: rest =>
      let step := CoreTask.run_core_task s g r
      let next := registerAll step.2.2 rest
      (step.2.1 :: next.1, next.2)

/-- The display slot a task holds: the tqdm `position` of its bar, if any. -/
def slotOf (s : CoreTaskState) : Option Nat :=
  s.pbar.map Pbar.position

lemma run_core_task_success (s : CoreTaskState) (g : GlobalState)
    (r : ApiResponse) (j : String) (hok : r.ok = true) (hid : r.body.id = some j) :
    CoreTask.run_core_task s g r =
      (.ok (), { s with
        response := some (.parsed r.body),
        id := some j,
        pbar := some { total := 100, position := g.barCnt,
                       desc := "Progress " ++ s.name, n := 0 },
        status := CoreStatus.RUNNING },
       { barCnt := g.barCnt + 1 }) := by
  simp [CoreTask.run_core_task, check_response, CoreKeys.value,
    StatusPayload.hasKey, get_key, hok, hid]

/-- C5: for every task state, `is_success` holds iff the status is `DONE`
and the result is set; `is_fail` holds iff the status is in `FAIL_STATUS` or
the status is `DONE` with no result; and the two predicates are never both
true. -/
theorem C5_success_fail_predicates (s : CoreTaskState) :
    (Task.is_success s = true ↔ (s.status = CoreStatus.DONE ∧ s.result ≠ none)) ∧
    (Task.is_fail s = true ↔
      (s.status ∈ CoreStatus.FAIL_STATUS ∨
        (s.status = CoreStatus.DONE ∧ s.result = none))) ∧
    ¬(Task.is_success s = true ∧ Task.is_fail s = true) := by
  refine ⟨?_, ?_, ?_⟩
  · simp [Task.is_success, Option.isSome_iff_ne_none]
  · simp [Task.is_fail, CoreStatus.FAIL_STATUS, Option.isNone_iff_eq_none]
  · rintro ⟨hs, hf⟩
    simp [Task.is_success, Option.isSome_iff_ne_none] at hs
    simp [Task.is_fail, CoreStatus.FAIL_STATUS, CoreStatus.FAIL,
      Option.isNone_iff_eq_none, hs.1, CoreStatus.DONE] at hf
    exact hs.2 hf

/-- C6: when the submission response is a transport failure or lacks the job
identifier, `run_core_task` raises the submission error and leaves the task
state (in particular its `PENDING` status) and the slot counter `BAR_CNT`
untouched. -/
theorem C6_submission_failure (s : CoreTaskState) (g : GlobalState)
    (r : ApiResponse) (h : r.ok = false ∨ r.body.id = none) :
    CoreTask.run_core_task s g r = (.error .submissionError, s, g) := by
  rcases h with h | h <;>
    simp [CoreTask.run_core_task, check_response, CoreKeys.value,
      StatusPayload.hasKey, h]

theorem C6_submission_failure_witness :
    CoreTask.run_core_task (CoreTask.init "t") { barCnt := 0 }
        { ok := false, body := { id := none, status := none, progress := none,
                                 result := none } } =
      (.error .submissionError, CoreTask.init "t", { barCnt := 0 }) :=
  C6_submission_failure (CoreTask.init "t") { barCnt := 0 } _ (Or.inl rfl)

/-- C7: on a successful submission response carrying identifier `j`,
`run_core_task` stores `j` as the task id, registers a progress bar at the
current `BAR_CNT` slot titled with the task's name, increments `BAR_CNT`,
and sets the status to `RUNNING`. -/
theorem C7_run_success (s : CoreTaskState) (g : GlobalState)
    (r : ApiResponse) (j : String) (hok : r.ok = true) (hid : r.body.id = some j) :
    CoreTask.run_core_task s g r =
      (.ok (), { s with
        response := some (.parsed r.body),
        id := some j,
        pbar := some { total := 100, position := g.barCnt,
                       desc := "Progress " ++ s.name, n := 0 },
        status := CoreStatus.RUNNING },
       { barCnt := g.barCnt + 1 }) :=
  run_core_task_success s g r j hok hid

theorem C7_run_success_witness :
    CoreTask.run_core_task (CoreTask.init "t") { barCnt := 0 }
        { ok := true, body := { id := some "J1", status := none,
                                progress := none, result := none } } =
      (.ok (), { CoreTask.init "t" with
        response := some (.parsed { id := some "J1", status := none,
                                    progress := none, result := none }),
        id := some "J1",
        pbar := some { total := 100, position := 0,
                       desc := "Progress t", n := 0 },
        status := CoreStatus.RUNNING },
       { barCnt := 1 }) :=
  C7_run_success (CoreTask.init "t") { barCnt := 0 } _ "J1" rfl rfl

/-- C10: `GPPredictTask.run` always raises `NameError` for the unbound name
`pred_params`, leaving the task state (hence its `PENDING` status) and the
slot counter unchanged: no remote job is ever submitted by this variant. -/
theorem C10_gp_predict_run_name_error (s : CoreTaskState) (g : GlobalState) :
    GPPredictTask.run s g = (.error (.nameError "pred_params"), s, g) := by
  rfl

/-- The payload with every field absent. -/
def emptyPayload : StatusPayload :=
  { id := none, status := none, progress := none, result := none }

/-- A running task at progress `1/2` whose poll response reports the smaller
progress `1/4`. -/
def c1Task : CoreTaskState :=
  { status := CoreStatus.RUNNING, result := none, name := "t",
    id := some "J1", response := none, progress := 1/2,
    pbar := some { total := 100, position := 0, desc := "Progress t", n := 50 } }

/-- A successful poll response whose payload carries only `progress = 1/4`. -/
def c1Poll : ApiResponse :=
  { ok := true,
    body := { id := none, status := none, progress := some (1/4), result := none } }

lemma pyInt_intCast (a : ℤ) : pyInt (a : ℚ) = a := by
  unfold pyInt
  simp only [Rat.num_intCast, Rat.den_intCast, Nat.div_one]
  split
  · rw [Int.ofNat_natAbs_of_nonpos (le_of_lt (by assumption)), neg_neg]
  · exact Int.natAbs_of_nonneg (le_of_not_lt (by assumption))

lemma c1_delta : (50 : ℤ) + pyInt ((4⁻¹ - 2⁻¹ : ℚ) * 100) = 25 := by
  have h : ((4⁻¹ - 2⁻¹ : ℚ) * 100) = ((-25 : ℤ) : ℚ) := by norm_num
  rw [h, pyInt_intCast]
  norm_num

/-- C1 counterexample: an `update` whose payload reports progress `1/4` while
the task is at `1/2` succeeds, moves the stored progress down to `1/4`, and
shifts the progress bar by the negative delta `-25` (from count `50` to
`25`): the delta is not clamped at `0` and progress decreases. -/
theorem C1_counterexample :
    (CoreTask.update c1Task c1Poll).1 = .ok () ∧
    (CoreTask.update c1Task c1Poll).2.progress < c1Task.progress ∧
    (CoreTask.update c1Task c1Poll).2.pbar =
      some { total := 100, position := 0, desc := "Progress t", n := 25 } := by
  have h : CoreTask.update c1Task c1Poll =
      (.ok (), { c1Task with
        response := some (.parsed c1Poll.body),
        pbar := some { total := 100, position := 0, desc := "Progress t", n := 25 },
        progress := 1/4 }) := by
    simp [CoreTask.update, CoreTask.update_task_response, CoreTask.update_pbar,
      check_response, c1Task, c1Poll, CoreStatus.DONE_STATUS, CoreStatus.RUNNING,
      CoreStatus.DONE, CoreStatus.FAIL, c1_delta]
  rw [h]
  refine ⟨rfl, by norm_num [c1Task], rfl⟩

/-- C1 amended: `update_pbar` reports the raw delta
`int((resp_progress - progress) * 100)` to the progress bar — negative when
the payload reports a smaller value — and sets `progress` to the payload
value, so the stored progress follows the payload and can decrease. -/
theorem C1_progress_follows_payload (s : CoreTaskState) (pb : Pbar) (v : ℚ)
    (h : s.pbar = some pb) :
    CoreTask.update_pbar s v =
      (.ok (), { s with
        pbar := some { pb with n := pb.n + pyInt ((v - s.progress) * 100) },
        progress := v }) := by
  simp [CoreTask.update_pbar, h]

theorem C1_progress_follows_payload_witness :
    CoreTask.update_pbar c1Task (1/4) =
      (.ok (), { c1Task with
        pbar := some { total := 100, position := 0, desc := "Progress t",
                       n := 50 + pyInt ((1/4 - 1/2) * 100) },
        progress := 1/4 }) :=
  C1_progress_follows_payload c1Task
    { total := 100, position := 0, desc := "Progress t", n := 50 } (1/4) rfl

/-- A task already in a terminal state, with its last parsed payload stored. -/
def c2Task : CoreTaskState :=
  { status := CoreStatus.DONE, result := some "r", name := "t",
    id := some "J1",
    response := some (.parsed { id := some "J1", status := some "done",
                                progress := some 1, result := some "r" }),
    progress := 1,
    pbar := some { total := 100, position := 0, desc := "Progress t", n := 100 } }

/-- A poll response arriving after the task is done. -/
def c2Poll : ApiResponse :=
  { ok := true,
    body := { id := none, status := none, progress := none, result := none } }

/-- C2 counterexample: calling `update` on a task whose status is already in
`DONE_STATUS` is not a full no-op — the stored `response` is overwritten with
the raw poll response before the early return. -/
theorem C2_counterexample :
    Task.is_done c2Task = true ∧
    (CoreTask.update c2Task c2Poll).1 = .ok () ∧
    (CoreTask.update c2Task c2Poll).2.response ≠ c2Task.response := by
  refine ⟨rfl, rfl, ?_⟩
  intro h
  simp [CoreTask.update, c2Task, c2Poll, CoreStatus.DONE_STATUS,
    CoreStatus.DONE, CoreStatus.FAIL] at h

/-- C2 amended: on a task already in `DONE_STATUS`, `update` performs the
poll and overwrites the stored `response` with the raw poll response, but
returns without error and leaves `status`, `result`, `progress`, `id`, the
name and the progress bar unchanged. -/
theorem C2_update_after_done (s : CoreTaskState) (r : ApiResponse)
    (h : Task.is_done s = true) :
    CoreTask.update s r = (.ok (), { s with response := some (.raw r) }) := by
  have h' : CoreStatus.DONE_STATUS.contains
      ({ s with response := some (RespStored.raw r) } : CoreTaskState).status = true := h
  simp only [CoreTask.update, h', if_true]

theorem C2_update_after_done_witness :
    CoreTask.update c2Task c2Poll =
      (.ok (), { c2Task with response := some (.raw c2Poll) }) :=
  C2_update_after_done c2Task c2Poll rfl

/-- A running task with a known remote id. -/
def c3Task : CoreTaskState :=
  { status := CoreStatus.RUNNING, result := none, name := "t",
    id := some "J1", response := none, progress := 0,
    pbar := some { total := 100, position := 0, desc := "Progress t", n := 0 } }

/-- A failed cancellation response (non-success transport result). -/
def c3Cancel : ApiResponse :=
  { ok := false,
    body := { id := none, status := none, progress := none, result := none } }

/-- C3 counterexample: when the task has a remote id and the cancellation
request fails, `check_response` raises out of `stop`, the status is left
`RUNNING` (not `FAIL`) and the task is not done — the failure is not merely
logged. -/
theorem C3_counterexample :
    (CoreTask.stop c3Task c3Cancel).1 = .error .submissionError ∧
    (CoreTask.stop c3Task c3Cancel).2.status ≠ CoreStatus.FAIL ∧
    Task.is_done (CoreTask.stop c3Task c3Cancel).2 = false := by
  refine ⟨rfl, ?_, rfl⟩
  intro h
  simp [CoreTask.stop, check_response, c3Task, c3Cancel,
    CoreStatus.RUNNING, CoreStatus.FAIL] at h

/-- C3 amended: `stop` ends with `status == FAIL` and `isDone() == true`
whenever the task has no remote id or the cancellation response is a
success; when the id is set and the cancellation response fails, the raise
from `check_response` propagates to the caller and the status is unchanged. -/
theorem C3_stop_sets_fail (s : CoreTaskState) (r : ApiResponse)
    (h : s.id = none ∨ r.ok = true) :
    CoreTask.stop s r = (.ok (), { s with status := CoreStatus.FAIL }) ∧
    Task.is_done { s with status := CoreStatus.FAIL } = true := by
  refine ⟨?_, by simp [Task.is_done, CoreStatus.DONE_STATUS]⟩
  rcases h with h | h
  · simp [CoreTask.stop, h]
  · cases hid : s.id <;> simp [CoreTask.stop, check_response, hid, h]

theorem C3_stop_sets_fail_witness :
    CoreTask.stop c3Task { ok := true, body := emptyPayload } =
      (.ok (), { c3Task with status := CoreStatus.FAIL }) ∧
    Task.is_done { c3Task with status := CoreStatus.FAIL } = true :=
  C3_stop_sets_fail c3Task { ok := true, body := emptyPayload } (Or.inr rfl)

/-- A running task that already holds the remote id `"J1"` from its run. -/
def c4Task : CoreTaskState :=
  { status := CoreStatus.RUNNING, result := none, name := "t",
    id := some "J1", response := none, progress := 0,
    pbar := some { total := 100, position := 0, desc := "Progress t", n := 0 } }

/-- A poll response whose payload reports a different identifier `"J2"`. -/
def c4Poll : ApiResponse :=
  { ok := true,
    body := { id := some "J2", status := none, progress := none, result := none } }

/-- C4 counterexample: a task holding id `"J1"` after a successful run, when
updated with a payload carrying id `"J2"`, ends with id `"J2"`: the stored
job identifier is overwritten by `update`, not immutable. -/
theorem C4_counterexample :
    c4Task.id = some "J1" ∧
    (CoreTask.update c4Task c4Poll).1 = .ok () ∧
    (CoreTask.update c4Task c4Poll).2.id = some "J2" := by
  refine ⟨rfl, rfl, rfl⟩

lemma update_task_response_id (s : CoreTaskState) (p : StatusPayload)
    (hresp : s.response = some (.parsed p)) :
    (CoreTask.update_task_response s).2.id = p.id.or s.id := by
  unfold CoreTask.update_task_response
  rw [hresp]
  cases hid : p.id <;> cases hp : p.progress <;> cases hpb : s.pbar <;>
    cases hr : p.result <;> cases hs : p.status <;>
      simp [CoreTask.update_pbar, hid, hp, hpb, hr, hs, Option.or]

/-- C4 amended: the job identifier is `None` at construction and is set by a
successful `run_core_task`; it is however not immutable afterward —
`update_task_response` overwrites `id` with the payload's id field whenever
that field is present. -/
theorem C4_id_set_once_but_overwritable (name : String) (s : CoreTaskState)
    (p : StatusPayload) (v : String)
    (hresp : s.response = some (.parsed p)) (hid : p.id = some v) :
    (CoreTask.init name).id = none ∧
    (CoreTask.update_task_response s).2.id = some v := by
  refine ⟨rfl, ?_⟩
  rw [update_task_response_id s p hresp, hid]
  rfl

theorem C4_id_set_once_but_overwritable_witness :
    (CoreTask.init "t").id = none ∧
    (CoreTask.update_task_response
        { c4Task with response := some (.parsed c4Poll.body) }).2.id = some "J2" :=
  C4_id_set_once_but_overwritable "t"
    { c4Task with response := some (.parsed c4Poll.body) } c4Poll.body "J2" rfl rfl

/-- C8: when the stored response is a parsed payload (and a progress bar is
available whenever the payload carries a progress value),
`update_task_response` returns without raising; each of the four fields is
applied when present in the payload and the corresponding attribute is left
unchanged when absent. -/
theorem C8_absent_fields_skipped (s : CoreTaskState) (p : StatusPayload)
    (hresp : s.response = some (.parsed p))
    (hpb : p.progress = none ∨ s.pbar.isSome = true) :
    (CoreTask.update_task_response s).1 = .ok () ∧
    (CoreTask.update_task_response s).2.id = p.id.or s.id ∧
    (CoreTask.update_task_response s).2.progress = p.progress.getD s.progress ∧
    (CoreTask.update_task_response s).2.result = p.result.or s.result ∧
    (CoreTask.update_task_response s).2.status = p.status.getD s.status := by
  unfold CoreTask.update_task_response
  rw [hresp]
  rcases hpb with hpb | hpb
  · cases hid : p.id <;> cases hr : p.result <;> cases hs : p.status <;>
      simp [hpb, hid, hr, hs, Option.or]
  · obtain ⟨pb, hpb⟩ := Option.isSome_iff_exists.mp hpb
    cases hid : p.id <;> cases hp : p.progress <;> cases hr : p.result <;>
      cases hs : p.status <;>
        simp [CoreTask.update_pbar, hpb, hid, hp, hr, hs, Option.or]

theorem C8_absent_fields_skipped_witness :
    (CoreTask.update_task_response c2Task).1 = .ok () ∧
    (CoreTask.update_task_response c2Task).2.id = some "J1" ∧
    (CoreTask.update_task_response c2Task).2.progress = 1 ∧
    (CoreTask.update_task_response c2Task).2.result = some "r" ∧
    (CoreTask.update_task_response c2Task).2.status = "done" := by
  have h := C8_absent_fields_skipped c2Task
    { id := some "J1", status := some "done", progress := some 1, result := some "r" }
    rfl (Or.inr rfl)
  simpa [Option.or, c2Task] using h

lemma registerAll_slots (l : List (CoreTaskState × ApiResponse)) :
    ∀ g : GlobalState, (∀ x ∈ l, submitOk x.2 = true) →
      (registerAll g l).2.barCnt = g.barCnt + l.length ∧
      (registerAll g l).1.map slotOf =
        (List.range l.length).map (fun i => some (g.barCnt + i)) := by
  induction l with
  | nil =>
      intro g _
      exact ⟨rfl, rfl⟩
  | cons x rest ih =>
      intro g h
      obtain ⟨s, r⟩ := x
      have hx : r.ok = true ∧ r.body.id.isSome = true := by
        simpa [submitOk] using h (s, r) (List.mem_cons_self _ _)
      obtain ⟨j, hj⟩ := Option.isSome_iff_exists.mp hx.2
      have hstep := run_core_task_success s g r j hx.1 hj
      have hrest := ih { barCnt := g.barCnt + 1 }
        (fun y hy => h y (List.mem_cons_of_mem _ hy))
      constructor
      · simp only [registerAll, hstep]
        rw [hrest.1]
        show g.barCnt + 1 + rest.length = g.barCnt + (rest.length + 1)
        omega
      · simp only [registerAll, hstep, List.map_cons, List.length_cons]
        rw [hrest.2, List.range_succ_eq_map, List.map_cons, List.map_map]
        refine congrArg₂ List.cons (by simp [slotOf]) ?_
        refine List.map_congr_left ?_
        intro a _
        simp only [Function.comp_apply, Option.some.injEq]
        omega

/-- C9: threading the process-wide `BAR_CNT` counter through any sequence of
successful submissions, the counter grows by exactly one per registration
(never reset), the tasks' slots in registration order are exactly
`initial, initial+1, initial+2, ...`, and those slots are pairwise distinct
and strictly increasing. -/
theorem C9_slots_distinct_increasing (g : GlobalState)
    (l : List (CoreTaskState × ApiResponse)) (h : ∀ x ∈ l, submitOk x.2 = true) :
    (registerAll g l).2.barCnt = g.barCnt + l.length ∧
    (registerAll g l).1.map slotOf =
      (List.range l.length).map (fun i => some (g.barCnt + i)) ∧
    List.Pairwise (fun a b => a ≠ b ∧ ∃ x y : ℕ, a = some x ∧ b = some y ∧ x < y)
      ((registerAll g l).1.map slotOf) := by
  obtain ⟨h1, h2⟩ := registerAll_slots l g h
  refine ⟨h1, h2, ?_⟩
  rw [h2]
  refine List.Pairwise.map _ ?_ (List.pairwise_lt_range l.length)
  intro a b hab
  exact ⟨by simp; omega, g.barCnt + a, g.barCnt + b, rfl, rfl, by omega⟩

/-- Two fresh tasks with successful submission responses. -/
def c9List : List (CoreTaskState × ApiResponse) :=
  [(CoreTask.init "a",
    { ok := true, body := { id := some "A", status := none, progress := none,
                            result := none } }),
   (CoreTask.init "b",
    { ok := true, body := { id := some "B", status := none, progress := none,
                            result := none } })]

theorem C9_slots_distinct_increasing_witness :
    (registerAll { barCnt := 0 } c9List).2.barCnt = 0 + c9List.length ∧
    (registerAll { barCnt := 0 } c9List).1.map slotOf = [some 0, some 1] := by
  have h := C9_slots_distinct_increasing { barCnt := 0 } c9List (by decide)
  refine ⟨h.1, h.2.1.trans ?_⟩
  rfl

end Decanter
